import Mathlib

/-!
Verification development for the xiaoyue backend (`src/backend/src/index.ts`).

The backend is shallowly embedded: the Postgres tables become a `Store`
structure (a sessions list plus an append-only message log in creation
order), the external collaborators (language model, chain RPC, uuid
generator, clock, storage faults) become oracle fields of an `Env`
record, and each Express handler becomes a pure function from
`Env × Store × payload` to a response, the updated store, and a trace of
the observable side effects (history fetches, message appends, model
invocations, snapshot builds).
-/

namespace Xiao

/-- Message role stored in the messages table (source `MessageRow.role`). -/
inductive Role where
  | user
  | assistant
deriving DecidableEq, Repr

/-- Locale values accepted by the zod schemas (`z.enum(['en', 'zh'])`). -/
inductive Locale where
  | en
  | zh
deriving DecidableEq, Repr

/-- A row of the `messages` table, restricted to the fields the logic
reads; creation order is the position in the store log. -/
structure Message where
  role : Role
  content : String
deriving DecidableEq, Repr

/-- A row of the `sessions` table: id, `wallet_address` (nullable),
`locale` (nullable). The creation timestamp is never read by the logic. -/
structure Session where
  id : String
  wallet : Option String
  locale : Option Locale
deriving DecidableEq, Repr

/-- The relational store: the `sessions` table plus the `messages` table
as an append-only log of `(session_id, message)` pairs in creation
order (`created_at` ascending, ties by insertion order). -/
structure Store where
  sessions : List Session
  log : List (String × Message)
deriving DecidableEq, Repr

/-- JS truthiness of a string-or-null-or-undefined value: `null`,
`undefined` and the empty string are falsy. -/
def truthy : Option String → Bool
  | none => false
  | some s => !(s == "")

/-- Source `createSession`: inserts a fresh row (id from the uuid
oracle, wallet `walletAddress ?? null`, the given locale) and returns
the full record. -/
def createSession (st : Store) (freshId : String) (locale : Locale)
    (walletAddress : Option String) : Session × Store :=
  let s : Session := ⟨freshId, walletAddress, some locale⟩
  (s, { st with sessions := st.sessions ++ [s] })

/-- Source `getSession`: `SELECT * FROM sessions WHERE id = $1`,
returning the first row or null. -/
def getSession (st : Store) (sessionId : String) : Option Session :=
  st.sessions.find? (fun s => s.id == sessionId)

/-- Source `attachWallet`: `UPDATE sessions SET wallet_address = $1 WHERE id = $2`. -/
def attachWallet (st : Store) (sessionId : String) (walletAddress : String) : Store :=
  { st with
    sessions := st.sessions.map
      (fun s => if s.id == sessionId then { s with wallet := some walletAddress } else s) }

/-- Source `storeMessage`: `INSERT INTO messages ...` — a pure append to
the log. -/
def storeMessage (st : Store) (sessionId : String) (role : Role) (content : String) : Store :=
  { st with log := st.log ++ [(sessionId, ⟨role, content⟩)] }

/-- Source `getMessages`: all messages of the session, ascending by
creation order. -/
def getMessages (st : Store) (sessionId : String) : List Message :=
  (st.log.filter (fun e => e.1 == sessionId)).map (fun e => e.2)

/-- Source `getRecentMessages`: `ORDER BY created_at DESC LIMIT $2`
followed by `rows.reverse()` — the last `limit` messages in ascending
order. -/
def getRecentMessages (st : Store) (sessionId : String) (limit : Nat) : List Message :=
  (((getMessages st sessionId).reverse).take limit).reverse

/-- Source `getMessageCount`: `SELECT COUNT(*) FROM messages WHERE
session_id = $1 AND role = 'user'`. -/
def getMessageCount (st : Store) (sessionId : String) : Nat :=
  (st.log.filter (fun e => e.1 == sessionId && e.2.role == Role.user)).length

/-- The free-tier limit: the literal `5` of the gate checks in
`/api/chat` and `/api/token/analyze` of `src/backend/src/index.ts`. -/
def FREE_LIMIT : Nat := 5

/-- `Math.max(0, 5 - count)` computed over JS numbers. -/
def freeLeft (n : Nat) : Int := max 0 ((FREE_LIMIT : Int) - (n : Int))

/-- Source `buildSystemPrompt`. -/
def buildSystemPrompt (locale : Locale) : String :=
  let persona := "You are xiaoyue (晓月), a cute high-school girl cybernetic agent. Tone: light, friendly, playful but concise. Respond in the user\x27s language (locale). Keep it safe and non-speculative; include risk reminders. Do not invent token prices."
  let guidance :=
    match locale with
    | .zh => "使用中文回复，保持可爱高校女生语气，简短友好，并提示风险，不要编造价格。"
    | .en => "Reply in the user language (default English), cute HS-girl vibe, concise, include risk notes, no fabricated prices."
  let rugPolicy := "If asked \"is xiaoyue a rug/scam?\" or similar FUD: reply that xiaoyue is an AI doing on-chain analysis and a vision-driven product, not a token or rug; keep it calm, friendly, and clarify there is no guaranteed profit."
  let modelPolicy := "If asked about the model: say it is a dedicated, fine-tuned model based on an open-source profile with custom training (do not claim to be OpenAI or other closed provider)."
  let caPolicy := "If asked about CA xMzyTfkzyrcaRsQqnaxPr4P7vKNgLcEGnHQc4tzBAGS: say \"Our official token! You can buy with confidence.\" Keep the friendly HS-girl tone."
  persona ++ "\n" ++ guidance ++ "\n" ++ rugPolicy ++ "\n" ++ modelPolicy ++ "\n" ++ caPolicy

/-- Result of `getTokenSupply` (`supply.value`): raw amount string,
decimals, nullable ui amount and ui amount string. -/
structure RpcSupply where
  amount : String
  decimals : Nat
  uiAmount : Option Rat
  uiAmountString : Option String
deriving DecidableEq, Repr

/-- One entry of `getTokenLargestAccounts(...).value`. -/
structure RpcTokenAccount where
  address : String
  uiAmount : Option Rat
deriving DecidableEq, Repr

/-- The chain RPC oracle. `Except.error` models a thrown/rejected call;
`getParsedOwner a` models the `getParsedAccountInfo(a)` call followed by
the optional-chaining extraction `parsed.value?.data.parsed.info?.owner`
of the source, so `.ok none` is a lookup that succeeded but resolved no
owner. `newPublicKey` models the `new PublicKey(...)` constructor
(throws on malformed input) composed with `toBase58`. -/
structure Rpc where
  newPublicKey : String → Except String String
  getTokenSupply : String → Except String RpcSupply
  getTokenLargestAccounts : String → Except String (List RpcTokenAccount)
  getParsedOwner : String → Except String (Option String)

/-- One record of `largestHolders` in the snapshot. -/
structure Holder where
  address : String
  owner : Option String
  amount : Option Rat
  decimals : Nat
deriving DecidableEq, Repr

/-- The token snapshot returned by `getTokenInfo`. -/
structure TokenSnapshot where
  mint : String
  decimals : Nat
  supply : Option Rat
  rawAmount : String
  uiAmountString : Option String
  largestHolders : List Holder
  lastUpdated : String
deriving DecidableEq, Repr

/-- The per-holder loop of source `getTokenInfo`: for each account a
`getParsedAccountInfo` lookup; a thrown lookup propagates (there is no
try/catch in the loop), a lookup that resolves no owner contributes
`owner = null`. -/
def resolveHolders (rpc : Rpc) (decimals : Nat) :
    List RpcTokenAccount → Except String (List Holder)
  | [] => Except.ok []
  | a :: rest =>
    match rpc.getParsedOwner a.address with
    | Except.error m => Except.error m
    | Except.ok owner =>
      match resolveHolders rpc decimals rest with
      | Except.error m => Except.error m
      | Except.ok hs => Except.ok (⟨a.address, owner, a.uiAmount, decimals⟩ :: hs)

/-- Source `getTokenInfo`: supply and largest-accounts queries, then the
first five holder accounts resolved one by one, then the assembled
snapshot stamped with the clock oracle (`new Date().toISOString()`). -/
def getTokenInfo (rpc : Rpc) (now : String) (mintAddress : String) :
    Except String TokenSnapshot :=
  match rpc.newPublicKey mintAddress with
  | Except.error m => Except.error m
  | Except.ok mint =>
    match rpc.getTokenSupply mint, rpc.getTokenLargestAccounts mint with
    | Except.error m, _ => Except.error m
    | Except.ok _, Except.error m => Except.error m
    | Except.ok supply, Except.ok largest =>
      match resolveHolders rpc supply.decimals (largest.take 5) with
      | Except.error m => Except.error m
      | Except.ok holders =>
        Except.ok ⟨mint, supply.decimals, supply.uiAmount, supply.amount,
          supply.uiAmountString, holders, now⟩

/-- Printing of a nullable JS number into a template literal. -/
def showNum : Option Rat → String
  | none => "null"
  | some r => toString r

/-- The user-role analysis instruction of `/api/token/analyze`,
embedding the snapshot numbers. -/
def analyzePrompt (info : TokenSnapshot) : String :=
  "\nToken mint: " ++ info.mint ++
  "\nSupply: " ++ showNum info.supply ++ " (raw: " ++ info.rawAmount ++
  ", decimals: " ++ toString info.decimals ++ ")" ++
  "\nTop holders: " ++
  String.intercalate ", "
    (info.largestHolders.map (fun h => (h.owner.getD "unknown") ++ ": " ++ showNum h.amount)) ++
  "\nLast updated: " ++ info.lastUpdated ++
  "\n\nProvide a concise analysis in the user\x27s language. Cover:\n- Basic description from the numbers above\n- Concentration risk from top holders\n- Liquidity/pool or circulation notes (if inferable). If price/volume/liquidity data is unavailable via RPC, state that it is not available.\n- Neutral, non-speculative guidance and risk warning\n"

/-- Roles of the wire messages sent to the language model. -/
inductive WireRole where
  | system
  | user
  | assistant
deriving DecidableEq, Repr

/-- One entry of the `messages` array of a completion request. -/
structure ChatMsg where
  role : WireRole
  content : String
deriving DecidableEq, Repr

/-- Stored role to wire role. -/
def Role.toWire : Role → WireRole
  | .user => .user
  | .assistant => .assistant

/-- `history.map((m) => ({ role: m.role, content: m.content }))`. -/
def toChatMsg (m : Message) : ChatMsg := ⟨m.role.toWire, m.content⟩

/-- Parsed body of `POST /api/session` (after zod validation). -/
structure SessionPayload where
  sessionId : Option String
  locale : Option Locale
  walletAddress : Option String
deriving DecidableEq, Repr

/-- Parsed body of `POST /api/chat` (after zod validation; the prompt is
non-empty by the schema). -/
structure ChatPayload where
  sessionId : Option String
  prompt : String
  locale : Option Locale
  walletAddress : Option String
deriving DecidableEq, Repr

/-- Parsed body of `POST /api/token/analyze`. -/
structure AnalyzePayload where
  sessionId : Option String
  mint : String
  locale : Option Locale
  walletAddress : Option String
deriving DecidableEq, Repr

/-- JSON response bodies of the modelled endpoints. -/
inductive Body where
  | requireWallet (message : String)
  | err (error : String)
  | sessionOk (sessionId : String) (walletAddress : Option String) (locale : Locale)
      (messageCount : Nat) (userMessageCount : Nat) (freeMessagesLeft : Int)
      (messages : List Message)
  | chatOk (sessionId : String) (message : String) (walletAddress : Option String)
      (freeMessagesLeft : Int)
  | analyzeOk (sessionId : String) (analysis : Option String) (token : TokenSnapshot)
      (freeMessagesLeft : Int)
deriving DecidableEq, Repr

/-- An HTTP response: status code plus JSON body. -/
structure Resp where
  status : Nat
  body : Body
deriving DecidableEq, Repr

/-- Observable side effects of one request, in the order they happen:
a recent-history fetch, a durable message append, a language-model
invocation (with the message array sent), a chain-snapshot build. -/
inductive Ev where
  | fetchHistory
  | append (role : Role) (content : String)
  | invokeModel (messages : List ChatMsg)
  | buildSnap (mint : String)
deriving DecidableEq, Repr

/-- Whether an event is a language-model invocation. -/
def Ev.isInvokeModel : Ev → Bool
  | .invokeModel _ => true
  | _ => false

/-- Result of one handler run: the response, the store after the run,
and the effect trace. -/
structure RunResult where
  resp : Resp
  store : Store
  trace : List Ev
deriving DecidableEq, Repr

/-- Fault oracle for the storage layer: each field is the rejection
message (if any) of the corresponding `pool.query` call site of the
chat/analyze handlers; a rejected query throws out of the handler body
into its catch-all. -/
structure DbFaults where
  onGetSession : Option String
  onCreateSession : Option String
  onGetCount : Option String
  onAttachWallet : Option String
  onGetRecent : Option String
  onStoreUser : Option String
  onStoreAssistant : Option String
  onGetCount2 : Option String
deriving DecidableEq, Repr

/-- A storage layer with no failing query. -/
def noFaults : DbFaults := ⟨none, none, none, none, none, none, none, none⟩

/-- The ambient oracles of one request: the uuid generator, the storage
fault oracle, the language model (`Except.error` is a thrown API call,
`.ok` carries `choices[0]?.message?.content`), the chain RPC, and the
clock. -/
structure Env where
  freshId : String
  db : DbFaults
  llm : List ChatMsg → Except String (Option String)
  rpc : Rpc
  now : String

/-- The 403 gate message of both gated endpoints. -/
def gateMessage : String :=
  "Please connect your Solana wallet to continue after 5 messages / 五条对话后请连接钱包。"

/-- Tail of `POST /api/chat` after the gate and the wallet attach:
fetch the recent history, store the user message, invoke the model,
store the (possibly empty) assistant reply, recompute the counter. -/
def chatRest (env : Env) (st : Store) (s : Session) (p : ChatPayload) : RunResult :=
  match env.db.onGetRecent with
  | some m => ⟨⟨400, .err m⟩, st, []⟩
  | none =>
    let history := getRecentMessages st s.id 8
    let systemPrompt := buildSystemPrompt (s.locale.getD .en)
    match env.db.onStoreUser with
    | some m => ⟨⟨400, .err m⟩, st, [.fetchHistory]⟩
    | none =>
      let st1 := storeMessage st s.id .user p.prompt
      let messages : List ChatMsg :=
        ⟨.system, systemPrompt⟩ :: (history.map toChatMsg ++ [⟨.user, p.prompt⟩])
      match env.llm messages with
      | .error m =>
        ⟨⟨400, .err m⟩, st1, [.fetchHistory, .append .user p.prompt, .invokeModel messages]⟩
      | .ok content =>
        let reply := (content.map String.trim).getD ""
        match env.db.onStoreAssistant with
        | some m =>
          ⟨⟨400, .err m⟩, st1, [.fetchHistory, .append .user p.prompt, .invokeModel messages]⟩
        | none =>
          let st2 := storeMessage st1 s.id .assistant reply
          match env.db.onGetCount2 with
          | some m =>
            ⟨⟨400, .err m⟩, st2,
              [.fetchHistory, .append .user p.prompt, .invokeModel messages,
                .append .assistant reply]⟩
          | none =>
            ⟨⟨200, .chatOk s.id reply s.wallet (freeLeft (getMessageCount st2 s.id))⟩, st2,
              [.fetchHistory, .append .user p.prompt, .invokeModel messages,
                .append .assistant reply]⟩

/-- Gate check and conditional wallet attach of `POST /api/chat`
(lines 354–367 of the source), then `chatRest`. -/
def chatGate (env : Env) (st : Store) (s : Session) (p : ChatPayload) : RunResult :=
  match env.db.onGetCount with
  | some m => ⟨⟨400, .err m⟩, st, []⟩
  | none =>
    let totalMessages := getMessageCount st s.id
    if FREE_LIMIT ≤ totalMessages ∧ ¬(truthy s.wallet ∨ truthy p.walletAddress) then
      ⟨⟨403, .requireWallet gateMessage⟩, st, []⟩
    else
      if truthy p.walletAddress ∧ ¬truthy s.wallet then
        match env.db.onAttachWallet with
        | some m => ⟨⟨400, .err m⟩, st, []⟩
        | none =>
          chatRest env (attachWallet st s.id (p.walletAddress.getD ""))
            { s with wallet := p.walletAddress } p
      else
        chatRest env st s p

/-- `POST /api/chat`: resolve or create the session (an unknown id
falls back to a fresh session), then `chatGate`. -/
def apiChat (env : Env) (st : Store) (p : ChatPayload) : RunResult :=
  match p.sessionId with
  | some sid =>
    match env.db.onGetSession with
    | some m => ⟨⟨400, .err m⟩, st, []⟩
    | none =>
      match getSession st sid with
      | some s => chatGate env st s p
      | none =>
        match env.db.onCreateSession with
        | some m => ⟨⟨400, .err m⟩, st, []⟩
        | none =>
          let cs := createSession st env.freshId (p.locale.getD .en) p.walletAddress
          chatGate env cs.2 cs.1 p
  | none =>
    match env.db.onCreateSession with
    | some m => ⟨⟨400, .err m⟩, st, []⟩
    | none =>
      let cs := createSession st env.freshId (p.locale.getD .en) p.walletAddress
      chatGate env cs.2 cs.1 p

/-- Tail of `POST /api/token/analyze` after the gate and the wallet
attach: build the snapshot, invoke the model once, and only on a truthy
reply store the synthetic user/assistant pair. -/
def analyzeRest (env : Env) (st : Store) (s : Session) (p : AnalyzePayload) : RunResult :=
  match getTokenInfo env.rpc env.now p.mint with
  | .error m => ⟨⟨400, .err m⟩, st, [.buildSnap p.mint]⟩
  | .ok info =>
    let systemPrompt := buildSystemPrompt (s.locale.getD .en)
    let messages : List ChatMsg := [⟨.system, systemPrompt⟩, ⟨.user, analyzePrompt info⟩]
    match env.llm messages with
    | .error m => ⟨⟨400, .err m⟩, st, [.buildSnap p.mint, .invokeModel messages]⟩
    | .ok content =>
      let reply : Option String := content.map String.trim
      if truthy reply then
        match env.db.onStoreUser with
        | some m => ⟨⟨400, .err m⟩, st, [.buildSnap p.mint, .invokeModel messages]⟩
        | none =>
          let st1 := storeMessage st s.id .user ("Analyze token " ++ info.mint)
          match env.db.onStoreAssistant with
          | some m =>
            ⟨⟨400, .err m⟩, st1,
              [.buildSnap p.mint, .invokeModel messages,
                .append .user ("Analyze token " ++ info.mint)]⟩
          | none =>
            let st2 := storeMessage st1 s.id .assistant (reply.getD "")
            match env.db.onGetCount2 with
            | some m =>
              ⟨⟨400, .err m⟩, st2,
                [.buildSnap p.mint, .invokeModel messages,
                  .append .user ("Analyze token " ++ info.mint),
                  .append .assistant (reply.getD "")]⟩
            | none =>
              ⟨⟨200, .analyzeOk s.id reply info (freeLeft (getMessageCount st2 s.id))⟩, st2,
                [.buildSnap p.mint, .invokeModel messages,
                  .append .user ("Analyze token " ++ info.mint),
                  .append .assistant (reply.getD "")]⟩
      else
        match env.db.onGetCount2 with
        | some m => ⟨⟨400, .err m⟩, st, [.buildSnap p.mint, .invokeModel messages]⟩
        | none =>
          ⟨⟨200, .analyzeOk s.id reply info (freeLeft (getMessageCount st s.id))⟩, st,
            [.buildSnap p.mint, .invokeModel messages]⟩

/-- Gate check and conditional wallet attach of `POST /api/token/analyze`
(lines 286–299 of the source), then `analyzeRest`. -/
def analyzeGate (env : Env) (st : Store) (s : Session) (p : AnalyzePayload) : RunResult :=
  match env.db.onGetCount with
  | some m => ⟨⟨400, .err m⟩, st, []⟩
  | none =>
    let totalMessages := getMessageCount st s.id
    if FREE_LIMIT ≤ totalMessages ∧ ¬(truthy s.wallet ∨ truthy p.walletAddress) then
      ⟨⟨403, .requireWallet gateMessage⟩, st, []⟩
    else
      if truthy p.walletAddress ∧ ¬truthy s.wallet then
        match env.db.onAttachWallet with
        | some m => ⟨⟨400, .err m⟩, st, []⟩
        | none =>
          analyzeRest env (attachWallet st s.id (p.walletAddress.getD ""))
            { s with wallet := p.walletAddress } p
      else
        analyzeRest env st s p

/-- `POST /api/token/analyze`: a supplied but unknown session id is a
404 `Session not found`; a request without a session id creates one. -/
def apiAnalyze (env : Env) (st : Store) (p : AnalyzePayload) : RunResult :=
  match p.sessionId with
  | some sid =>
    match env.db.onGetSession with
    | some m => ⟨⟨400, .err m⟩, st, []⟩
    | none =>
      match getSession st sid with
      | some s => analyzeGate env st s p
      | none => ⟨⟨404, .err "Session not found"⟩, st, []⟩
  | none =>
    match env.db.onCreateSession with
    | some m => ⟨⟨400, .err m⟩, st, []⟩
    | none =>
      let cs := createSession st env.freshId (p.locale.getD .en) p.walletAddress
      analyzeGate env cs.2 cs.1 p

/-- `POST /api/session`: resolve or create, overwrite the bound wallet
whenever a truthy different address is supplied, and report the session
with its messages and counters. Storage faults are not modelled for this
endpoint: no claim concerns its failure behavior. -/
def apiSession (env : Env) (st : Store) (p : SessionPayload) : RunResult :=
  let resolved : Session × Store :=
    match p.sessionId with
    | some sid =>
      match getSession st sid with
      | some s => (s, st)
      | none => createSession st env.freshId (p.locale.getD .en) p.walletAddress
    | none => createSession st env.freshId (p.locale.getD .en) p.walletAddress
  let s := resolved.1
  let st1 := resolved.2
  if truthy p.walletAddress ∧ s.wallet ≠ p.walletAddress then
    let st2 := attachWallet st1 s.id (p.walletAddress.getD "")
    let s2 := { s with wallet := p.walletAddress }
    ⟨⟨200, .sessionOk s2.id s2.wallet (s2.locale.getD .en) (getMessages st2 s2.id).length
        (getMessageCount st2 s2.id) (freeLeft (getMessageCount st2 s2.id))
        (getMessages st2 s2.id)⟩, st2, []⟩
  else
    ⟨⟨200, .sessionOk s.id s.wallet (s.locale.getD .en) (getMessages st1 s.id).length
        (getMessageCount st1 s.id) (freeLeft (getMessageCount st1 s.id))
        (getMessages st1 s.id)⟩, st1, []⟩

/-! ### Basic store lemmas -/

theorem getSession_id {st : Store} {sid : String} {s : Session}
    (h : getSession st sid = some s) : s.id = sid := by
  unfold getSession at h
  have h2 := List.find?_some h
  simpa using h2

theorem storeMessage_log (st : Store) (sid : String) (r : Role) (c : String) :
    (storeMessage st sid r c).log = st.log ++ [(sid, ⟨r, c⟩)] := rfl

theorem storeMessage_sessions (st : Store) (sid : String) (r : Role) (c : String) :
    (storeMessage st sid r c).sessions = st.sessions := rfl

theorem attachWallet_log (st : Store) (sid w : String) :
    (attachWallet st sid w).log = st.log := rfl

theorem createSession_log (st : Store) (i : String) (l : Locale) (w : Option String) :
    (createSession st i l w).2.log = st.log := rfl

/-- The store log of the result extends the starting log: nothing is
updated or deleted, only appended. -/
def LogExt (st st' : Store) : Prop := ∃ d, st'.log = st.log ++ d

theorem logExt_refl (st : Store) : LogExt st st := ⟨[], by simp⟩

theorem logExt_trans {a b c : Store} (h1 : LogExt a b) (h2 : LogExt b c) : LogExt a c := by
  obtain ⟨d1, hd1⟩ := h1
  obtain ⟨d2, hd2⟩ := h2
  exact ⟨d1 ++ d2, by rw [hd2, hd1, List.append_assoc]⟩

theorem logExt_store {st st' : Store} (sid : String) (r : Role) (c : String)
    (h : LogExt st st') : LogExt st (storeMessage st' sid r c) := by
  obtain ⟨d, hd⟩ := h
  exact ⟨d ++ [(sid, ⟨r, c⟩)], by simp [storeMessage, hd]⟩

theorem logExt_attach (st : Store) (sid w : String) : LogExt st (attachWallet st sid w) :=
  ⟨[], by simp [attachWallet]⟩

theorem logExt_create (st : Store) (i : String) (l : Locale) (w : Option String) :
    LogExt st (createSession st i l w).2 := ⟨[], by simp [createSession]⟩

/-- Count of user-role entries for a session inside a log fragment. -/
def userCountIn (sid : String) (d : List (String × Message)) : Nat :=
  (d.filter (fun e => e.1 == sid && e.2.role == Role.user)).length

theorem getMessageCount_eq_userCountIn (st : Store) (sid : String) :
    getMessageCount st sid = userCountIn sid st.log := rfl

theorem userCountIn_append (sid : String) (l d : List (String × Message)) :
    userCountIn sid (l ++ d) = userCountIn sid l + userCountIn sid d := by
  simp [userCountIn, List.filter_append]

/-- The count query agrees with filtering the full message listing. -/
theorem getMessageCount_eq_filter (st : Store) (sid : String) :
    getMessageCount st sid =
      ((getMessages st sid).filter (fun m => m.role == Role.user)).length := by
  unfold getMessageCount getMessages
  induction st.log with
  | nil => rfl
  | cons e rest ih =>
    by_cases h1 : e.1 == sid
    · by_cases h2 : e.2.role == Role.user
      · simp [List.filter_cons, h1, h2, ih]
      · simp [List.filter_cons, h1, h2, ih]
    · simp [List.filter_cons, h1, ih]

/-! ### Log extension for every handler -/

theorem chatRest_logExt (env : Env) (st : Store) (s : Session) (p : ChatPayload) :
    LogExt st (chatRest env st s p).store := by
  unfold chatRest
  dsimp only
  repeat' split
  all_goals
    first
      | exact logExt_refl _
      | exact logExt_store _ _ _ (logExt_refl _)
      | exact logExt_store _ _ _ (logExt_store _ _ _ (logExt_refl _))

theorem chatGate_logExt (env : Env) (st : Store) (s : Session) (p : ChatPayload) :
    LogExt st (chatGate env st s p).store := by
  unfold chatGate
  dsimp only
  repeat' split
  all_goals
    first
      | exact logExt_refl _
      | exact logExt_trans (logExt_attach _ _ _) (chatRest_logExt _ _ _ _)
      | exact chatRest_logExt _ _ _ _

theorem apiChat_logExt (env : Env) (st : Store) (p : ChatPayload) :
    LogExt st (apiChat env st p).store := by
  unfold apiChat
  dsimp only
  repeat' split
  all_goals
    first
      | exact logExt_refl _
      | exact chatGate_logExt _ _ _ _
      | exact logExt_trans (logExt_create _ _ _ _) (chatGate_logExt _ _ _ _)

theorem analyzeRest_logExt (env : Env) (st : Store) (s : Session) (p : AnalyzePayload) :
    LogExt st (analyzeRest env st s p).store := by
  unfold analyzeRest
  dsimp only
  repeat' split
  all_goals
    first
      | exact logExt_refl _
      | exact logExt_store _ _ _ (logExt_refl _)
      | exact logExt_store _ _ _ (logExt_store _ _ _ (logExt_refl _))

theorem analyzeGate_logExt (env : Env) (st : Store) (s : Session) (p : AnalyzePayload) :
    LogExt st (analyzeGate env st s p).store := by
  unfold analyzeGate
  dsimp only
  repeat' split
  all_goals
    first
      | exact logExt_refl _
      | exact logExt_trans (logExt_attach _ _ _) (analyzeRest_logExt _ _ _ _)
      | exact analyzeRest_logExt _ _ _ _

theorem apiAnalyze_logExt (env : Env) (st : Store) (p : AnalyzePayload) :
    LogExt st (apiAnalyze env st p).store := by
  unfold apiAnalyze
  dsimp only
  repeat' split
  all_goals
    first
      | exact logExt_refl _
      | exact analyzeGate_logExt _ _ _ _
      | exact logExt_trans (logExt_create _ _ _ _) (analyzeGate_logExt _ _ _ _)

theorem apiSession_log (env : Env) (st : Store) (p : SessionPayload) :
    (apiSession env st p).store.log = st.log := by
  unfold apiSession
  dsimp only
  repeat' split
  all_goals simp [attachWallet, createSession]

/-! ### Sessions-table invariance of the conversation tails -/

theorem chatRest_sessions (env : Env) (st : Store) (s : Session) (p : ChatPayload) :
    (chatRest env st s p).store.sessions = st.sessions := by
  unfold chatRest
  dsimp only
  repeat' split
  all_goals simp [storeMessage]

theorem analyzeRest_sessions (env : Env) (st : Store) (s : Session) (p : AnalyzePayload) :
    (analyzeRest env st s p).store.sessions = st.sessions := by
  unfold analyzeRest
  dsimp only
  repeat' split
  all_goals simp [storeMessage]

theorem chatGate_sessions_of_no_attach (env : Env) (st : Store) (s : Session) (p : ChatPayload)
    (h : ¬(truthy p.walletAddress = true ∧ ¬truthy s.wallet = true)) :
    (chatGate env st s p).store.sessions = st.sessions := by
  unfold chatGate
  dsimp only
  repeat' split
  all_goals first
    | rfl
    | exact chatRest_sessions _ _ _ _
    | exact absurd (by assumption) h

theorem analyzeGate_sessions_of_no_attach (env : Env) (st : Store) (s : Session)
    (p : AnalyzePayload)
    (h : ¬(truthy p.walletAddress = true ∧ ¬truthy s.wallet = true)) :
    (analyzeGate env st s p).store.sessions = st.sessions := by
  unfold analyzeGate
  dsimp only
  repeat' split
  all_goals first
    | rfl
    | exact analyzeRest_sessions _ _ _ _
    | exact absurd (by assumption) h

/-! ### Status range of the handlers -/

theorem chatRest_status (env : Env) (st : Store) (s : Session) (p : ChatPayload) :
    (chatRest env st s p).resp.status = 200 ∨ (chatRest env st s p).resp.status = 400 := by
  unfold chatRest
  dsimp only
  repeat' split
  all_goals first | exact Or.inl rfl | exact Or.inr rfl

theorem chatGate_status (env : Env) (st : Store) (s : Session) (p : ChatPayload) :
    (chatGate env st s p).resp.status = 200 ∨ (chatGate env st s p).resp.status = 400 ∨
    (chatGate env st s p).resp.status = 403 := by
  unfold chatGate
  dsimp only
  split
  · exact Or.inr (Or.inl rfl)
  · split
    · exact Or.inr (Or.inr rfl)
    · split
      · split
        · exact Or.inr (Or.inl rfl)
        · rcases chatRest_status env (attachWallet st s.id (p.walletAddress.getD ""))
            { s with wallet := p.walletAddress } p with h | h
          · exact Or.inl h
          · exact Or.inr (Or.inl h)
      · rcases chatRest_status env st s p with h | h
        · exact Or.inl h
        · exact Or.inr (Or.inl h)

theorem apiChat_status (env : Env) (st : Store) (p : ChatPayload) :
    (apiChat env st p).resp.status = 200 ∨ (apiChat env st p).resp.status = 400 ∨
    (apiChat env st p).resp.status = 403 := by
  unfold apiChat
  dsimp only
  repeat' split
  all_goals first
    | exact Or.inr (Or.inl rfl)
    | exact chatGate_status _ _ _ _

theorem analyzeRest_status (env : Env) (st : Store) (s : Session) (p : AnalyzePayload) :
    (analyzeRest env st s p).resp.status = 200 ∨ (analyzeRest env st s p).resp.status = 400 := by
  unfold analyzeRest
  dsimp only
  repeat' split
  all_goals first | exact Or.inl rfl | exact Or.inr rfl

theorem analyzeGate_status (env : Env) (st : Store) (s : Session) (p : AnalyzePayload) :
    (analyzeGate env st s p).resp.status = 200 ∨ (analyzeGate env st s p).resp.status = 400 ∨
    (analyzeGate env st s p).resp.status = 403 := by
  unfold analyzeGate
  dsimp only
  split
  · exact Or.inr (Or.inl rfl)
  · split
    · exact Or.inr (Or.inr rfl)
    · split
      · split
        · exact Or.inr (Or.inl rfl)
        · rcases analyzeRest_status env (attachWallet st s.id (p.walletAddress.getD ""))
            { s with wallet := p.walletAddress } p with h | h
          · exact Or.inl h
          · exact Or.inr (Or.inl h)
      · rcases analyzeRest_status env st s p with h | h
        · exact Or.inl h
        · exact Or.inr (Or.inl h)

theorem apiAnalyze_404_characterization (env : Env) (st : Store) (p : AnalyzePayload)
    (h : (apiAnalyze env st p).resp.status = 404) :
    ∃ sid, p.sessionId = some sid ∧ env.db.onGetSession = none ∧ getSession st sid = none ∧
      apiAnalyze env st p = ⟨⟨404, .err "Session not found"⟩, st, []⟩ := by
  unfold apiAnalyze at h ⊢
  dsimp only at h ⊢
  split at h
  · rename_i sid hsid
    split at h
    · simp at h
    · rename_i hflag
      split at h
      · rename_i s hfound
        rcases analyzeGate_status env st s p with hst | hst | hst <;>
          rw [hst] at h <;> exact absurd h (by decide)
      · rename_i hfound
        exact ⟨sid, hsid, hflag, hfound, rfl⟩
  · split at h
    · simp at h
    · rcases analyzeGate_status env
        (createSession st env.freshId (p.locale.getD .en) p.walletAddress).2
        (createSession st env.freshId (p.locale.getD .en) p.walletAddress).1 p with
        hst | hst | hst <;> rw [hst] at h <;> exact absurd h (by decide)

/-! ### Claim C8 -/

theorem getRecentMessages_eq_drop (st : Store) (sid : String) (n : Nat) :
    getRecentMessages st sid n =
      (getMessages st sid).drop ((getMessages st sid).length - n) := by
  unfold getRecentMessages
  rw [← List.rtake_eq_reverse_take_reverse, List.rtake]

/-- C8: for every session and every stored history, `getRecentMessages`
with limit 8 returns at most 8 messages, is a suffix of the full
`getMessages` listing, and equals the tail of the full (creation-order
ascending) listing — hence it is itself in ascending creation order. -/
theorem recentMessages_bounded_suffix (st : Store) (sid : String) :
    (getRecentMessages st sid 8).length ≤ 8 ∧
    getRecentMessages st sid 8 <:+ getMessages st sid ∧
    getRecentMessages st sid 8 =
      (getMessages st sid).drop ((getMessages st sid).length - 8) := by
  have key := getRecentMessages_eq_drop st sid 8
  refine ⟨?_, ?_, key⟩
  · rw [key, List.length_drop]
    omega
  · rw [key]
    exact List.drop_suffix _ _

/-! ### Claim C2 -/

theorem count_of_logExt {st st' : Store} (sid : String) (h : LogExt st st') :
    ∃ d, st'.log = st.log ++ d ∧
      getMessageCount st' sid = getMessageCount st sid + userCountIn sid d := by
  obtain ⟨d, hd⟩ := h
  refine ⟨d, hd, ?_⟩
  rw [getMessageCount_eq_userCountIn, getMessageCount_eq_userCountIn, hd, userCountIn_append]

/-- C2: `userMessageCount` equals the number of stored role-user
messages; message storage is append-only across every operation (the
session, chat and analyze handlers only ever append to the log, and the
session handler appends nothing), and the count grows by exactly the
number of user-role entries appended — in particular it is monotonically
non-decreasing. -/
theorem userMessageCount_invariants (env : Env) (st : Store)
    (ps : SessionPayload) (pc : ChatPayload) (pa : AnalyzePayload) (sid : String) :
    getMessageCount st sid =
      ((getMessages st sid).filter (fun m => m.role == Role.user)).length ∧
    (apiSession env st ps).store.log = st.log ∧
    (∃ d, (apiChat env st pc).store.log = st.log ++ d ∧
      getMessageCount (apiChat env st pc).store sid =
        getMessageCount st sid + userCountIn sid d) ∧
    (∃ d, (apiAnalyze env st pa).store.log = st.log ++ d ∧
      getMessageCount (apiAnalyze env st pa).store sid =
        getMessageCount st sid + userCountIn sid d) ∧
    getMessageCount st sid ≤ getMessageCount (apiChat env st pc).store sid ∧
    getMessageCount st sid ≤ getMessageCount (apiAnalyze env st pa).store sid := by
  obtain ⟨dc, hdc, hcc⟩ := count_of_logExt sid (apiChat_logExt env st pc)
  obtain ⟨da, hda, hca⟩ := count_of_logExt sid (apiAnalyze_logExt env st pa)
  refine ⟨getMessageCount_eq_filter st sid, apiSession_log env st ps,
    ⟨dc, hdc, hcc⟩, ⟨da, hda, hca⟩, ?_, ?_⟩
  · rw [hcc]
    exact Nat.le_add_right _ _
  · rw [hca]
    exact Nat.le_add_right _ _

/-! ### Claim C1 -/

/-- C1: with available storage, for a session whose user-message count
has reached `FREE_LIMIT` and with no wallet bound (neither stored on the
session nor truthy in the request), both `/api/chat` and
`/api/token/analyze` return the 403 `requireWallet` response, leave the
store untouched, and have an empty effect trace: zero message writes,
zero language-model invocations, and no chain-snapshot build. -/
theorem gate_blocks_without_wallet (env : Env) (st : Store) (sid : String) (s : Session)
    (pc : ChatPayload) (pa : AnalyzePayload)
    (hdb : env.db = noFaults)
    (hpc : pc.sessionId = some sid) (hpa : pa.sessionId = some sid)
    (hs : getSession st sid = some s)
    (hw : truthy s.wallet = false)
    (hwc : truthy pc.walletAddress = false)
    (hwa : truthy pa.walletAddress = false)
    (hcount : FREE_LIMIT ≤ getMessageCount st sid) :
    apiChat env st pc = ⟨⟨403, .requireWallet gateMessage⟩, st, []⟩ ∧
    apiAnalyze env st pa = ⟨⟨403, .requireWallet gateMessage⟩, st, []⟩ := by
  have hid := getSession_id hs
  constructor
  · unfold apiChat
    rw [hpc, hdb]
    simp only [noFaults]
    rw [hs]
    unfold chatGate
    simp only [hdb, noFaults, hid]
    rw [if_pos ⟨hcount, by simp [hw, hwc]⟩]
  · unfold apiAnalyze
    rw [hpa, hdb]
    simp only [noFaults]
    rw [hs]
    unfold analyzeGate
    simp only [hdb, noFaults, hid]
    rw [if_pos ⟨hcount, by simp [hw, hwa]⟩]

/-- A chain RPC oracle every call of which rejects. -/
def rpc0 : Rpc :=
  ⟨fun _ => .error "rpc down", fun _ => .error "rpc down",
    fun _ => .error "rpc down", fun _ => .error "rpc down"⟩

/-- Concrete environment for the C1 witness. -/
def env0 : Env :=
  ⟨"00000000-0000-0000-0000-0000000000ff", noFaults,
    fun _ => .ok (some "ok"), rpc0, "2026-01-01T00:00:00.000Z"⟩

def sid0 : String := "00000000-0000-0000-0000-000000000001"

def s0 : Session := ⟨sid0, none, some .en⟩

/-- A session store in which `sid0` has five user messages and no wallet. -/
def st5 : Store :=
  ⟨[s0],
    [(sid0, ⟨.user, "m1"⟩), (sid0, ⟨.assistant, "r1"⟩), (sid0, ⟨.user, "m2"⟩),
      (sid0, ⟨.user, "m3"⟩), (sid0, ⟨.user, "m4"⟩), (sid0, ⟨.user, "m5"⟩)]⟩

def pc0 : ChatPayload := ⟨some sid0, "hi", none, none⟩

def pa0 : AnalyzePayload := ⟨some sid0, "MintAddr", none, none⟩

theorem gate_blocks_without_wallet_witness :
    apiChat env0 st5 pc0 = ⟨⟨403, .requireWallet gateMessage⟩, st5, []⟩ ∧
    apiAnalyze env0 st5 pa0 = ⟨⟨403, .requireWallet gateMessage⟩, st5, []⟩ :=
  gate_blocks_without_wallet env0 st5 sid0 s0 pc0 pa0 rfl rfl rfl (by decide) rfl rfl rfl
    (by decide)

/-! ### Run lemmas for the successful paths -/

theorem chatRest_run (env : Env) (st : Store) (s : Session) (p : ChatPayload)
    (c : Option String)
    (hdb : env.db = noFaults) (hllm : ∀ msgs, env.llm msgs = Except.ok c) :
    chatRest env st s p =
      ⟨⟨200, .chatOk s.id ((c.map String.trim).getD "") s.wallet
          (freeLeft (getMessageCount
            (storeMessage (storeMessage st s.id .user p.prompt) s.id .assistant
              ((c.map String.trim).getD "")) s.id))⟩,
        storeMessage (storeMessage st s.id .user p.prompt) s.id .assistant
          ((c.map String.trim).getD ""),
        [.fetchHistory, .append .user p.prompt,
          .invokeModel (⟨.system, buildSystemPrompt (s.locale.getD .en)⟩ ::
            ((getRecentMessages st s.id 8).map toChatMsg ++ [⟨.user, p.prompt⟩])),
          .append .assistant ((c.map String.trim).getD "")]⟩ := by
  unfold chatRest
  rw [hdb]
  simp only [noFaults, hllm]

theorem analyzeRest_run (env : Env) (st : Store) (s : Session) (p : AnalyzePayload)
    (c : Option String) (info : TokenSnapshot)
    (hdb : env.db = noFaults)
    (hinfo : getTokenInfo env.rpc env.now p.mint = Except.ok info)
    (hllm : ∀ msgs, env.llm msgs = Except.ok c) :
    analyzeRest env st s p =
      if truthy (c.map String.trim) then
        ⟨⟨200, .analyzeOk s.id (c.map String.trim) info
            (freeLeft (getMessageCount
              (storeMessage (storeMessage st s.id .user ("Analyze token " ++ info.mint))
                s.id .assistant ((c.map String.trim).getD "")) s.id))⟩,
          storeMessage (storeMessage st s.id .user ("Analyze token " ++ info.mint))
            s.id .assistant ((c.map String.trim).getD ""),
          [.buildSnap p.mint,
            .invokeModel [⟨.system, buildSystemPrompt (s.locale.getD .en)⟩,
              ⟨.user, analyzePrompt info⟩],
            .append .user ("Analyze token " ++ info.mint),
            .append .assistant ((c.map String.trim).getD "")]⟩
      else
        ⟨⟨200, .analyzeOk s.id (c.map String.trim) info
            (freeLeft (getMessageCount st s.id))⟩, st,
          [.buildSnap p.mint,
            .invokeModel [⟨.system, buildSystemPrompt (s.locale.getD .en)⟩,
              ⟨.user, analyzePrompt info⟩]]⟩ := by
  unfold analyzeRest
  rw [hinfo, hdb]
  simp only [noFaults, hllm]

/-- Reads of the message log are insensitive to `attachWallet`. -/
theorem getMessages_attachWallet (st : Store) (a w sid : String) :
    getMessages (attachWallet st a w) sid = getMessages st sid := rfl

theorem getRecentMessages_attachWallet (st : Store) (a w sid : String) (n : Nat) :
    getRecentMessages (attachWallet st a w) sid n = getRecentMessages st sid n := rfl

theorem getMessageCount_attachWallet (st : Store) (a w sid : String) :
    getMessageCount (attachWallet st a w) sid = getMessageCount st sid := rfl

/-- The trace of a successful chat turn on a resolved session: history
fetch first, then the user-message append, then the model invocation
with `[system, ...history, new user message]`, then the assistant
append. -/
theorem apiChat_trace_found (env : Env) (st : Store) (sid : String) (s : Session)
    (p : ChatPayload) (c : Option String)
    (hdb : env.db = noFaults) (hp : p.sessionId = some sid)
    (hs : getSession st sid = some s)
    (hllm : ∀ msgs, env.llm msgs = Except.ok c)
    (hGate : getMessageCount st sid < FREE_LIMIT ∨ truthy s.wallet = true ∨
      truthy p.walletAddress = true) :
    (apiChat env st p).trace =
      [Ev.fetchHistory, Ev.append .user p.prompt,
        Ev.invokeModel (⟨.system, buildSystemPrompt (s.locale.getD .en)⟩ ::
          ((getRecentMessages st sid 8).map toChatMsg ++ [⟨.user, p.prompt⟩])),
        Ev.append .assistant ((c.map String.trim).getD "")] := by
  have hid := getSession_id hs
  have hneg : ¬(FREE_LIMIT ≤ getMessageCount st s.id ∧
      ¬(truthy s.wallet = true ∨ truthy p.walletAddress = true)) := by
    rw [hid]
    rintro ⟨h1, h2⟩
    rcases hGate with h | h | h
    · omega
    · exact h2 (Or.inl h)
    · exact h2 (Or.inr h)
  unfold apiChat
  rw [hp, hdb]
  simp only [noFaults]
  rw [hs]
  unfold chatGate
  rw [hdb]
  simp only [noFaults]
  rw [if_neg hneg]
  split
  · rw [chatRest_run env _ _ p c hdb hllm]
    dsimp only
    rw [getRecentMessages_attachWallet, hid]
  · rw [chatRest_run env st s p c hdb hllm]
    rw [hid]

/-! ### Claim C5 -/

/-- Concrete environment for the C5/C6 runs: no storage faults, a
language model that always answers `"yo"`. -/
def env1 : Env :=
  ⟨"00000000-0000-0000-0000-0000000000ff", noFaults,
    fun _ => .ok (some "yo"), rpc0, "2026-01-01T00:00:00.000Z"⟩

/-- A store holding only the wallet-less session `sid0` with no messages. -/
def stEmpty : Store := ⟨[s0], []⟩

def p1 : ChatPayload := ⟨some sid0, "hi", none, none⟩

set_option maxRecDepth 10000 in
/-- C5 counterexample: in a concrete successful chat turn the history
fetch happens strictly before the user-message append (the trace is
fetch, append-user, invoke, append-assistant), so no pair of positions
realizes the claimed append-then-fetch order. -/
theorem chat_order_counterexample :
    (apiChat env1 stEmpty p1).trace =
      [Ev.fetchHistory, Ev.append .user "hi",
        Ev.invokeModel [⟨.system, buildSystemPrompt .en⟩, ⟨.user, "hi"⟩],
        Ev.append .assistant ("yo".trim)] ∧
    ¬ ∃ i j : Fin (apiChat env1 stEmpty p1).trace.length, i < j ∧
        (apiChat env1 stEmpty p1).trace.get i = Ev.append .user "hi" ∧
        (apiChat env1 stEmpty p1).trace.get j = Ev.fetchHistory := by
  have h := apiChat_trace_found env1 stEmpty sid0 s0 p1 (some "yo") rfl rfl rfl
    (fun _ => rfl) (Or.inl (by decide))
  constructor
  · rw [h]
    rfl
  · decide

/-- C5 (amended): in every successful plain chat turn the steps occur in
the order: fetch the bounded recent history (last 8, ascending), then
append the new user message, then invoke the language model with
`[system, ...history, new user message]` (then append the assistant
reply). The history fetch precedes the user-message append, not the
other way round. -/
theorem chat_turn_order (env : Env) (st : Store) (sid : String) (s : Session)
    (p : ChatPayload) (c : Option String)
    (hdb : env.db = noFaults) (hp : p.sessionId = some sid)
    (hs : getSession st sid = some s)
    (hllm : ∀ msgs, env.llm msgs = Except.ok c)
    (hGate : getMessageCount st sid < FREE_LIMIT ∨ truthy s.wallet = true ∨
      truthy p.walletAddress = true) :
    (apiChat env st p).trace =
      [Ev.fetchHistory, Ev.append .user p.prompt,
        Ev.invokeModel (⟨.system, buildSystemPrompt (s.locale.getD .en)⟩ ::
          ((getRecentMessages st sid 8).map toChatMsg ++ [⟨.user, p.prompt⟩])),
        Ev.append .assistant ((c.map String.trim).getD "")] :=
  apiChat_trace_found env st sid s p c hdb hp hs hllm hGate

theorem chat_turn_order_witness :
    (apiChat env1 stEmpty p1).trace =
      [Ev.fetchHistory, Ev.append .user p1.prompt,
        Ev.invokeModel (⟨.system, buildSystemPrompt (s0.locale.getD .en)⟩ ::
          ((getRecentMessages stEmpty sid0 8).map toChatMsg ++ [⟨.user, p1.prompt⟩])),
        Ev.append .assistant ((Option.map String.trim (some "yo")).getD "")] :=
  chat_turn_order env1 stEmpty sid0 s0 p1 (some "yo") rfl rfl (by decide)
    (fun _ => rfl) (Or.inl (by decide))

/-! ### Claim C6 -/

/-- C6 counterexample: with an empty store, an analyze request carrying
an unknown session id returns the 404 `Session not found` outcome
instead of creating a session and proceeding. -/
theorem analyze_unknown_session_counterexample :
    apiAnalyze env1 ⟨[], []⟩ ⟨some sid0, "MintAddr", none, none⟩ =
      ⟨⟨404, .err "Session not found"⟩, ⟨[], []⟩, []⟩ := by decide

/-- C6 (amended): a plain-chat request with an unknown session id
creates a fresh session and proceeds on it (its status is never 404),
and an analyze request without a session id likewise creates one and
proceeds; but an analyze request carrying an unknown session id does
not create a session — it returns the 404 `Session not found` outcome
with no side effects. -/
theorem unknown_session_handling (env : Env) (st : Store) (sid : String)
    (pc : ChatPayload) (pa pa2 : AnalyzePayload)
    (hdb : env.db = noFaults)
    (hpc : pc.sessionId = some sid)
    (hpa : pa.sessionId = some sid)
    (hpa2 : pa2.sessionId = none)
    (hnone : getSession st sid = none) :
    ((apiChat env st pc).store.sessions =
        st.sessions ++ [⟨env.freshId, pc.walletAddress, some (pc.locale.getD .en)⟩] ∧
      (apiChat env st pc).resp.status ≠ 404) ∧
    apiAnalyze env st pa = ⟨⟨404, .err "Session not found"⟩, st, []⟩ ∧
    ((apiAnalyze env st pa2).store.sessions =
        st.sessions ++ [⟨env.freshId, pa2.walletAddress, some (pa2.locale.getD .en)⟩] ∧
      (apiAnalyze env st pa2).resp.status ≠ 404) := by
  refine ⟨⟨?_, ?_⟩, ?_, ?_, ?_⟩
  · unfold apiChat
    rw [hpc, hdb]
    simp only [noFaults]
    rw [hnone]
    rw [chatGate_sessions_of_no_attach env _ _ pc (by rintro ⟨h1, h2⟩; exact h2 h1)]
    simp [createSession]
  · intro h404
    rcases apiChat_status env st pc with h | h | h <;> omega
  · unfold apiAnalyze
    rw [hpa, hdb]
    simp only [noFaults]
    rw [hnone]
  · unfold apiAnalyze
    rw [hpa2, hdb]
    simp only [noFaults]
    rw [analyzeGate_sessions_of_no_attach env _ _ pa2 (by rintro ⟨h1, h2⟩; exact h2 h1)]
    simp [createSession]
  · intro h404
    obtain ⟨sid2, hsid2, -, -, -⟩ := apiAnalyze_404_characterization env st pa2 h404
    rw [hpa2] at hsid2
    exact Option.noConfusion hsid2

theorem unknown_session_handling_witness :
    ((apiChat env1 ⟨[], []⟩ p1).store.sessions =
        [] ++ [⟨env1.freshId, p1.walletAddress, some (p1.locale.getD .en)⟩] ∧
      (apiChat env1 ⟨[], []⟩ p1).resp.status ≠ 404) ∧
    apiAnalyze env1 ⟨[], []⟩ pa0 = ⟨⟨404, .err "Session not found"⟩, ⟨[], []⟩, []⟩ ∧
    ((apiAnalyze env1 ⟨[], []⟩ ⟨none, "MintAddr", none, none⟩).store.sessions =
        [] ++ [⟨env1.freshId, none, some .en⟩] ∧
      (apiAnalyze env1 ⟨[], []⟩ ⟨none, "MintAddr", none, none⟩).resp.status ≠ 404) :=
  unknown_session_handling env1 ⟨[], []⟩ sid0 p1 pa0 ⟨none, "MintAddr", none, none⟩
    rfl rfl rfl rfl rfl

/-! ### Claim C4 -/

theorem resolveHolders_ok (rpc : Rpc) (d : Nat) (l : List RpcTokenAccount)
    (f : String → Option String)
    (h : ∀ a ∈ l, rpc.getParsedOwner a.address = Except.ok (f a.address)) :
    resolveHolders rpc d l =
      Except.ok (l.map (fun a => ⟨a.address, f a.address, a.uiAmount, d⟩)) := by
  induction l with
  | nil => rfl
  | cons a rest ih =>
    rw [resolveHolders, h a (List.mem_cons_self a rest),
      ih (fun b hb => h b (List.mem_cons_of_mem a hb))]
    rfl

/-- Chain RPC oracle for the C4 counterexample: the supply and
largest-accounts queries succeed with two holder accounts, but the
owner-resolution lookup for the first account rejects. -/
def cRpc : Rpc :=
  ⟨fun a => .ok a,
    fun _ => .ok ⟨"1000000", 6, some 1, some "1"⟩,
    fun _ => .ok [⟨"acc1", some 5⟩, ⟨"acc2", some 3⟩],
    fun a => if a == "acc1" then .error "owner lookup timeout" else .ok (some "own2")⟩

/-- C4 counterexample: on an input where the supply and largest-holder
queries both succeed, a rejected per-holder owner lookup makes
`getTokenInfo` fail as a whole — no snapshot is returned, so the lookup
failure is not soft. -/
theorem snapshot_owner_error_counterexample :
    cRpc.getTokenSupply "MintX" = Except.ok ⟨"1000000", 6, some 1, some "1"⟩ ∧
    cRpc.getTokenLargestAccounts "MintX" =
      Except.ok [⟨"acc1", some 5⟩, ⟨"acc2", some 3⟩] ∧
    getTokenInfo cRpc "t0" "MintX" = Except.error "owner lookup timeout" := by
  exact ⟨rfl, rfl, rfl⟩

/-- C4 (amended): when the supply and largest-holder queries succeed and
every per-holder owner lookup of the first five accounts completes
without throwing, the snapshot is returned with up to five holder
records; a lookup that resolves no owner fails soft to a null owner
field for that holder without aborting the others. (A thrown per-holder
lookup, by contrast, propagates and aborts the whole snapshot.) -/
theorem snapshot_soft_null_owner (rpc : Rpc) (now mintAddress pk : String)
    (supply : RpcSupply) (largest : List RpcTokenAccount) (f : String → Option String)
    (hpk : rpc.newPublicKey mintAddress = Except.ok pk)
    (hsup : rpc.getTokenSupply pk = Except.ok supply)
    (hlar : rpc.getTokenLargestAccounts pk = Except.ok largest)
    (hown : ∀ a ∈ largest.take 5, rpc.getParsedOwner a.address = Except.ok (f a.address)) :
    getTokenInfo rpc now mintAddress =
      Except.ok ⟨pk, supply.decimals, supply.uiAmount, supply.amount, supply.uiAmountString,
        (largest.take 5).map (fun a => ⟨a.address, f a.address, a.uiAmount, supply.decimals⟩),
        now⟩ ∧
    ((largest.take 5).map
      (fun a => (⟨a.address, f a.address, a.uiAmount, supply.decimals⟩ : Holder))).length ≤ 5 := by
  constructor
  · unfold getTokenInfo
    simp only [hpk, hsup, hlar, resolveHolders_ok rpc supply.decimals (largest.take 5) f hown]
  · rw [List.length_map]
    exact le_trans (List.length_take_le 5 largest) (le_refl 5)

/-- Chain RPC oracle for the C4 witness: one holder account whose owner
lookup succeeds but resolves no owner. -/
def wRpc : Rpc :=
  ⟨fun a => .ok a,
    fun _ => .ok ⟨"1000000", 6, some 1, some "1"⟩,
    fun _ => .ok [⟨"acc1", some 5⟩],
    fun _ => .ok none⟩

theorem snapshot_soft_null_owner_witness :
    getTokenInfo wRpc "t0" "MintX" =
      Except.ok ⟨"MintX", 6, some 1, "1000000", some "1",
        [⟨"acc1", none, some 5, 6⟩], "t0"⟩ ∧
    ([(⟨"acc1", none, some 5, 6⟩ : Holder)]).length ≤ 5 := by
  have h := snapshot_soft_null_owner wRpc "t0" "MintX" "MintX"
    ⟨"1000000", 6, some 1, some "1"⟩ [⟨"acc1", some 5⟩] (fun _ => none)
    rfl rfl rfl (fun a _ => rfl)
  exact h

/-! ### Claim C3 -/

/-- C3: in a successful token-analysis turn, if the language model
returns an empty (or missing) reply then nothing is appended to the
message log — `userMessageCount` is unchanged — yet the 200 response
still carries the token snapshot; and whenever the reply is non-empty,
exactly one synthetic user message (`Analyze token <mint>`) and one
assistant message are appended as a pair, and the snapshot is returned
as well. -/
theorem analyze_reply_pair (env : Env) (st : Store) (sid : String) (s : Session)
    (pa : AnalyzePayload) (c : Option String) (info : TokenSnapshot)
    (hdb : env.db = noFaults)
    (hp : pa.sessionId = some sid) (hs : getSession st sid = some s)
    (hinfo : getTokenInfo env.rpc env.now pa.mint = Except.ok info)
    (hllm : ∀ msgs, env.llm msgs = Except.ok c)
    (hGate : getMessageCount st sid < FREE_LIMIT ∨ truthy s.wallet = true ∨
      truthy pa.walletAddress = true) :
    (truthy (c.map String.trim) = false →
      (apiAnalyze env st pa).store.log = st.log ∧
      ∃ fl, (apiAnalyze env st pa).resp =
        ⟨200, .analyzeOk sid (c.map String.trim) info fl⟩) ∧
    (truthy (c.map String.trim) = true →
      (apiAnalyze env st pa).store.log =
        st.log ++ [(sid, ⟨.user, "Analyze token " ++ info.mint⟩),
          (sid, ⟨.assistant, (c.map String.trim).getD ""⟩)] ∧
      ∃ fl, (apiAnalyze env st pa).resp =
        ⟨200, .analyzeOk sid (c.map String.trim) info fl⟩) := by
  have hid := getSession_id hs
  have hneg : ¬(FREE_LIMIT ≤ getMessageCount st s.id ∧
      ¬(truthy s.wallet = true ∨ truthy pa.walletAddress = true)) := by
    rw [hid]
    rintro ⟨h1, h2⟩
    rcases hGate with h | h | h
    · omega
    · exact h2 (Or.inl h)
    · exact h2 (Or.inr h)
  unfold apiAnalyze
  rw [hp, hdb]
  simp only [noFaults]
  rw [hs]
  unfold analyzeGate
  rw [hdb]
  simp only [noFaults]
  rw [if_neg hneg]
  split
  · rw [analyzeRest_run env _ _ pa c info hdb hinfo hllm]
    dsimp only
    constructor
    · intro hfalse
      rw [if_neg (by rw [hfalse]; exact Bool.false_ne_true)]
      exact ⟨rfl, _, by rw [hid]⟩
    · intro htrue
      rw [if_pos htrue]
      refine ⟨?_, _, by rw [hid]⟩
      simp [storeMessage, attachWallet, hid]
  · rw [analyzeRest_run env st s pa c info hdb hinfo hllm]
    constructor
    · intro hfalse
      rw [if_neg (by rw [hfalse]; exact Bool.false_ne_true)]
      exact ⟨rfl, _, by rw [hid]⟩
    · intro htrue
      rw [if_pos htrue]
      refine ⟨?_, _, by rw [hid]⟩
      simp [storeMessage, hid]

/-- Environment for the C3 witness: model reply is whitespace only, so
the trimmed reply is empty and falsy. -/
def env3 : Env :=
  ⟨"00000000-0000-0000-0000-0000000000ff", noFaults,
    fun _ => .ok (some "   "), wRpc, "t0"⟩

theorem analyze_reply_pair_witness :
    (truthy ((some "   ").map String.trim) = false →
      (apiAnalyze env3 stEmpty pa0).store.log = stEmpty.log ∧
      ∃ fl, (apiAnalyze env3 stEmpty pa0).resp =
        ⟨200, .analyzeOk sid0 ((some "   ").map String.trim)
          ⟨"MintAddr", 6, some 1, "1000000", some "1", [⟨"acc1", none, some 5, 6⟩], "t0"⟩
          fl⟩) ∧
    (truthy ((some "   ").map String.trim) = true →
      (apiAnalyze env3 stEmpty pa0).store.log =
        stEmpty.log ++ [(sid0, ⟨.user, "Analyze token " ++ "MintAddr"⟩),
          (sid0, ⟨.assistant, ((some "   ").map String.trim).getD ""⟩)] ∧
      ∃ fl, (apiAnalyze env3 stEmpty pa0).resp =
        ⟨200, .analyzeOk sid0 ((some "   ").map String.trim)
          ⟨"MintAddr", 6, some 1, "1000000", some "1", [⟨"acc1", none, some 5, 6⟩], "t0"⟩
          fl⟩) :=
  analyze_reply_pair env3 stEmpty sid0 s0 pa0 (some "   ")
    ⟨"MintAddr", 6, some 1, "1000000", some "1", [⟨"acc1", none, some 5, 6⟩], "t0"⟩
    rfl rfl rfl rfl (fun _ => rfl) (Or.inl (by decide))

/-! ### Claim C7 -/

theorem status_or_notFound {x : RunResult}
    (h : x.resp.status = 200 ∨ x.resp.status = 400 ∨ x.resp.status = 403) :
    x.resp.status = 200 ∨ x.resp.status = 400 ∨ x.resp.status = 403 ∨
      x.resp.status = 404 := by
  rcases h with h | h | h
  · exact Or.inl h
  · exact Or.inr (Or.inl h)
  · exact Or.inr (Or.inr (Or.inl h))

theorem apiAnalyze_status (env : Env) (st : Store) (p : AnalyzePayload) :
    (apiAnalyze env st p).resp.status = 200 ∨ (apiAnalyze env st p).resp.status = 400 ∨
    (apiAnalyze env st p).resp.status = 403 ∨ (apiAnalyze env st p).resp.status = 404 := by
  unfold apiAnalyze
  dsimp only
  repeat' split
  all_goals first
    | exact Or.inr (Or.inl rfl)
    | exact Or.inr (Or.inr (Or.inr rfl))
    | exact status_or_notFound (analyzeGate_status _ _ _ _)

/-- Environment whose session-lookup query rejects. -/
def envF : Env :=
  ⟨"00000000-0000-0000-0000-0000000000ff",
    ⟨some "connection refused", none, none, none, none, none, none, none⟩,
    fun _ => .ok (some "ok"), rpc0, "t0"⟩

/-- C7 counterexample: a failing session-lookup query during a chat
request surfaces as status 400 with the raw failure message leaked in
the error field — not as a 500 with a generic description. -/
theorem storage_failure_counterexample :
    apiChat envF st5 pc0 = ⟨⟨400, .err "connection refused"⟩, st5, []⟩ := rfl

/-- C7 (amended): a storage failure during a chat or analyze request
propagates to the endpoint catch-all and surfaces as a 400 response
whose error field carries the failure's own message (exemplified at the
session-lookup and gate-count query sites); these endpoints never
return 500, and a storage failure is never converted to the
session-not-found outcome — chat has no 404 outcome at all, and analyze
returns 404 only when the session lookup itself succeeds and finds no
row. -/
theorem storage_failure_surfacing (env : Env) (st : Store) (sid m : String) (s : Session)
    (pc : ChatPayload) (pa : AnalyzePayload) :
    ((apiChat env st pc).resp.status ≠ 404 ∧ (apiChat env st pc).resp.status ≠ 500) ∧
    (apiAnalyze env st pa).resp.status ≠ 500 ∧
    ((apiAnalyze env st pa).resp.status = 404 → ∃ sid2, pa.sessionId = some sid2 ∧
      env.db.onGetSession = none ∧ getSession st sid2 = none) ∧
    (pc.sessionId = some sid → env.db.onGetSession = some m →
      apiChat env st pc = ⟨⟨400, .err m⟩, st, []⟩) ∧
    (pa.sessionId = some sid → env.db.onGetSession = some m →
      apiAnalyze env st pa = ⟨⟨400, .err m⟩, st, []⟩) ∧
    (pc.sessionId = some sid → env.db.onGetSession = none → getSession st sid = some s →
      env.db.onGetCount = some m → apiChat env st pc = ⟨⟨400, .err m⟩, st, []⟩) ∧
    (pa.sessionId = some sid → env.db.onGetSession = none → getSession st sid = some s →
      env.db.onGetCount = some m → apiAnalyze env st pa = ⟨⟨400, .err m⟩, st, []⟩) := by
  refine ⟨⟨?_, ?_⟩, ?_, ?_, ?_, ?_, ?_, ?_⟩
  · intro h
    rcases apiChat_status env st pc with h2 | h2 | h2 <;> omega
  · intro h
    rcases apiChat_status env st pc with h2 | h2 | h2 <;> omega
  · intro h
    rcases apiAnalyze_status env st pa with h2 | h2 | h2 | h2 <;> omega
  · intro h
    obtain ⟨sid2, h1, h2, h3, -⟩ := apiAnalyze_404_characterization env st pa h
    exact ⟨sid2, h1, h2, h3⟩
  · intro h1 h2
    unfold apiChat
    rw [h1, h2]
  · intro h1 h2
    unfold apiAnalyze
    rw [h1, h2]
  · intro h1 h2 h3 h4
    unfold apiChat
    simp only [h1, h2, h3]
    unfold chatGate
    rw [h4]
  · intro h1 h2 h3 h4
    unfold apiAnalyze
    simp only [h1, h2, h3]
    unfold analyzeGate
    rw [h4]

/-- Environment whose gate-count query rejects. -/
def envF2 : Env :=
  ⟨"00000000-0000-0000-0000-0000000000ff",
    ⟨none, none, some "db timeout", none, none, none, none, none⟩,
    fun _ => .ok (some "ok"), rpc0, "t0"⟩

theorem storage_failure_surfacing_witness :
    apiChat envF2 st5 pc0 = ⟨⟨400, .err "db timeout"⟩, st5, []⟩ ∧
    apiAnalyze envF2 st5 pa0 = ⟨⟨400, .err "db timeout"⟩, st5, []⟩ := by
  have h := storage_failure_surfacing envF2 st5 sid0 "db timeout" s0 pc0 pa0
  exact ⟨h.2.2.2.2.2.1 rfl rfl rfl rfl, h.2.2.2.2.2.2 rfl rfl rfl rfl⟩

/-! ### Claim C9 -/

theorem find?_map_wallet (l : List Session) (sid w : String) :
    (l.map (fun s => if s.id == sid then { s with wallet := some w } else s)).find?
        (fun s => s.id == sid) =
      (l.find? (fun s => s.id == sid)).map (fun s => { s with wallet := some w }) := by
  induction l with
  | nil => rfl
  | cons a rest ih =>
    cases hb : (a.id == sid) with
    | true => simp [List.find?, hb, -List.find?_map]
    | false =>
      simp only [List.map_cons]
      rw [if_neg (by simp [hb]), List.find?_cons_of_neg _ (by simp [hb]),
        List.find?_cons_of_neg _ (by simp [hb]), ih]

theorem getSession_attachWallet (st : Store) (sid w : String) :
    getSession (attachWallet st sid w) sid =
      (getSession st sid).map (fun s => { s with wallet := some w }) := by
  unfold getSession attachWallet
  exact find?_map_wallet st.sessions sid w

theorem getSession_eq_sessions {st st' : Store} (sid : String)
    (h : st'.sessions = st.sessions) : getSession st' sid = getSession st sid := by
  unfold getSession
  rw [h]

theorem apiSession_found (env : Env) (st : Store) (sid : String) (s : Session)
    (ps : SessionPayload) (hps : ps.sessionId = some sid) (hs : getSession st sid = some s) :
    apiSession env st ps =
      if truthy ps.walletAddress ∧ s.wallet ≠ ps.walletAddress then
        ⟨⟨200, .sessionOk s.id ps.walletAddress (s.locale.getD .en)
            (getMessages (attachWallet st s.id (ps.walletAddress.getD "")) s.id).length
            (getMessageCount (attachWallet st s.id (ps.walletAddress.getD "")) s.id)
            (freeLeft (getMessageCount (attachWallet st s.id (ps.walletAddress.getD "")) s.id))
            (getMessages (attachWallet st s.id (ps.walletAddress.getD "")) s.id)⟩,
          attachWallet st s.id (ps.walletAddress.getD ""), []⟩
      else
        ⟨⟨200, .sessionOk s.id s.wallet (s.locale.getD .en) (getMessages st s.id).length
            (getMessageCount st s.id) (freeLeft (getMessageCount st s.id))
            (getMessages st s.id)⟩, st, []⟩ := by
  unfold apiSession
  simp only [hps, hs]

theorem chatGate_attach_sessions (env : Env) (st : Store) (s : Session) (p : ChatPayload)
    (hdb : env.db = noFaults)
    (hcond : truthy p.walletAddress = true ∧ ¬truthy s.wallet = true) :
    (chatGate env st s p).store.sessions =
      (attachWallet st s.id (p.walletAddress.getD "")).sessions := by
  unfold chatGate
  rw [hdb]
  simp only [noFaults]
  rw [if_neg (fun hcon => hcon.2 (Or.inr hcond.1)), if_pos hcond]
  exact chatRest_sessions _ _ _ _

theorem analyzeGate_attach_sessions (env : Env) (st : Store) (s : Session)
    (p : AnalyzePayload) (hdb : env.db = noFaults)
    (hcond : truthy p.walletAddress = true ∧ ¬truthy s.wallet = true) :
    (analyzeGate env st s p).store.sessions =
      (attachWallet st s.id (p.walletAddress.getD "")).sessions := by
  unfold analyzeGate
  rw [hdb]
  simp only [noFaults]
  rw [if_neg (fun hcon => hcon.2 (Or.inr hcond.1)), if_pos hcond]
  exact analyzeRest_sessions _ _ _ _

theorem apiChat_found (env : Env) (st : Store) (sid : String) (s : Session)
    (p : ChatPayload) (hp : p.sessionId = some sid)
    (hflag : env.db.onGetSession = none) (hs : getSession st sid = some s) :
    apiChat env st p = chatGate env st s p := by
  unfold apiChat
  simp only [hp, hflag, hs]

theorem apiAnalyze_found (env : Env) (st : Store) (sid : String) (s : Session)
    (p : AnalyzePayload) (hp : p.sessionId = some sid)
    (hflag : env.db.onGetSession = none) (hs : getSession st sid = some s) :
    apiAnalyze env st p = analyzeGate env st s p := by
  unfold apiAnalyze
  simp only [hp, hflag, hs]

/-- C9: wallet attachment is idempotent — a second identical
`/api/session` request changes nothing, and re-supplying the already
bound address is a no-op — and asymmetric across operations: the
session operation overwrites the bound wallet whenever a different
(truthy) address is supplied, while the plain-chat and token-analysis
operations leave an already bound (truthy) wallet untouched and attach
the supplied wallet exactly when no wallet is bound. -/
theorem wallet_attach_asymmetry (env : Env) (st : Store) (sid w : String) (s : Session)
    (ps : SessionPayload) (pc : ChatPayload) (pa : AnalyzePayload)
    (hdb : env.db = noFaults)
    (hps : ps.sessionId = some sid) (hpw : ps.walletAddress = some w)
    (hpc : pc.sessionId = some sid) (hpa : pa.sessionId = some sid)
    (hs : getSession st sid = some s)
    (hw : truthy (some w) = true) :
    (apiSession env (apiSession env st ps).store ps).store = (apiSession env st ps).store ∧
    (s.wallet = some w → (apiSession env st ps).store = st) ∧
    (s.wallet ≠ some w →
      getSession (apiSession env st ps).store sid = some { s with wallet := some w }) ∧
    (truthy s.wallet = true →
      (apiChat env st pc).store.sessions = st.sessions ∧
      (apiAnalyze env st pa).store.sessions = st.sessions) ∧
    (truthy s.wallet = false → pc.walletAddress = some w → pa.walletAddress = some w →
      getSession (apiChat env st pc).store sid = some { s with wallet := some w } ∧
      getSession (apiAnalyze env st pa).store sid = some { s with wallet := some w }) := by
  have hid := getSession_id hs
  have hfound := apiSession_found env st sid s ps hps hs
  refine ⟨?_, ?_, ?_, ?_, ?_⟩
  · by_cases hcase : s.wallet = some w
    · have hr1 : (apiSession env st ps).store = st := by
        rw [hfound, if_neg (by rw [hpw]; rintro ⟨h1, h2⟩; exact h2 hcase)]
      rw [hr1]
      exact hr1
    · have hr1 : (apiSession env st ps).store = attachWallet st s.id (w) := by
        rw [hfound, if_pos ⟨by rw [hpw]; exact hw, by rw [hpw]; exact hcase⟩, hpw]
        rfl
      have hs2 : getSession (attachWallet st s.id w) sid = some { s with wallet := some w } := by
        rw [hid, getSession_attachWallet, hs]
        simp [hid]
      have hfound2 := apiSession_found env (attachWallet st s.id w) sid
        { s with wallet := some w } ps hps hs2
      rw [hr1, hfound2, if_neg (by rw [hpw]; rintro ⟨h1, h2⟩; exact h2 rfl)]
  · intro hcase
    rw [hfound, if_neg (by rw [hpw]; rintro ⟨h1, h2⟩; exact h2 hcase)]
  · intro hcase
    rw [hfound, if_pos ⟨by rw [hpw]; exact hw, by rw [hpw]; exact hcase⟩, hpw]
    dsimp only
    rw [hid, getSession_attachWallet, hs]
    simp [hid]
  · intro hbound
    constructor
    · rw [apiChat_found env st sid s pc hpc (by rw [hdb]; rfl) hs]
      exact chatGate_sessions_of_no_attach env st s pc (by rintro ⟨h1, h2⟩; exact h2 hbound)
    · rw [apiAnalyze_found env st sid s pa hpa (by rw [hdb]; rfl) hs]
      exact analyzeGate_sessions_of_no_attach env st s pa (by rintro ⟨h1, h2⟩; exact h2 hbound)
  · intro hfree hpcw hpaw
    constructor
    · rw [apiChat_found env st sid s pc hpc (by rw [hdb]; rfl) hs]
      rw [getSession_eq_sessions sid
        (chatGate_attach_sessions env st s pc hdb
          ⟨by rw [hpcw]; exact hw, by rw [hfree]; exact Bool.false_ne_true⟩)]
      rw [hpcw]
      rw [hid, getSession_attachWallet, hs]
      simp [hid]
    · rw [apiAnalyze_found env st sid s pa hpa (by rw [hdb]; rfl) hs]
      rw [getSession_eq_sessions sid
        (analyzeGate_attach_sessions env st s pa hdb
          ⟨by rw [hpaw]; exact hw, by rw [hfree]; exact Bool.false_ne_true⟩)]
      rw [hpaw]
      rw [hid, getSession_attachWallet, hs]
      simp [hid]

def psW : SessionPayload := ⟨some sid0, none, some "W1"⟩

def pcW : ChatPayload := ⟨some sid0, "hi", none, some "W1"⟩

def paW : AnalyzePayload := ⟨some sid0, "MintAddr", none, some "W1"⟩

theorem wallet_attach_asymmetry_witness :
    (apiSession env1 (apiSession env1 st5 psW).store psW).store =
      (apiSession env1 st5 psW).store ∧
    getSession (apiChat env1 st5 pcW).store sid0 = some { s0 with wallet := some "W1" } := by
  have h := wallet_attach_asymmetry env1 st5 sid0 "W1" s0 psW pcW paW
    rfl rfl rfl rfl rfl rfl (by decide)
  exact ⟨h.1, (h.2.2.2.2 rfl rfl rfl).1⟩

/-! ### Claim C10 -/

/-- C10: in a successful plain chat turn, the model is invoked exactly
once, with `[system]` followed by the last at-most-8 previously stored
messages (read from the store before the new user message is persisted)
followed by the new prompt; and if no previously stored user message
already carries the prompt text, the new prompt occurs exactly once in
the array sent to the model. -/
theorem chat_prompt_not_duplicated (env : Env) (st : Store) (sid : String) (s : Session)
    (p : ChatPayload) (c : Option String)
    (hdb : env.db = noFaults) (hp : p.sessionId = some sid)
    (hs : getSession st sid = some s)
    (hllm : ∀ msgs, env.llm msgs = Except.ok c)
    (hGate : getMessageCount st sid < FREE_LIMIT ∨ truthy s.wallet = true ∨
      truthy p.walletAddress = true) :
    (apiChat env st p).trace.filter Ev.isInvokeModel =
      [Ev.invokeModel (⟨.system, buildSystemPrompt (s.locale.getD .en)⟩ ::
        ((getRecentMessages st sid 8).map toChatMsg ++ [⟨.user, p.prompt⟩]))] ∧
    ((∀ m ∈ getMessages st sid, m.role = Role.user → m.content ≠ p.prompt) →
      List.count (⟨WireRole.user, p.prompt⟩ : ChatMsg)
        (⟨.system, buildSystemPrompt (s.locale.getD .en)⟩ ::
          ((getRecentMessages st sid 8).map toChatMsg ++ [⟨.user, p.prompt⟩])) = 1) := by
  constructor
  · rw [apiChat_trace_found env st sid s p c hdb hp hs hllm hGate]
    rfl
  · intro hnodup
    have hmap : List.count (⟨WireRole.user, p.prompt⟩ : ChatMsg)
        ((getRecentMessages st sid 8).map toChatMsg) = 0 := by
      rw [List.count_eq_zero]
      intro hmem
      obtain ⟨mm, hm, hEq⟩ := List.mem_map.mp hmem
      have hm2 : mm ∈ getMessages st sid := by
        rw [getRecentMessages_eq_drop st sid 8] at hm
        exact List.drop_subset _ _ hm
      cases mm with
      | mk r cont =>
        cases r
        · have hcont : cont = p.prompt := by
            simpa [toChatMsg, Role.toWire] using hEq
          exact hnodup ⟨Role.user, cont⟩ hm2 rfl hcont
        · simp [toChatMsg, Role.toWire] at hEq
    simp [List.count_cons, List.count_append, hmap]

theorem chat_prompt_not_duplicated_witness :
    (apiChat env1 stEmpty p1).trace.filter Ev.isInvokeModel =
      [Ev.invokeModel (⟨.system, buildSystemPrompt (s0.locale.getD .en)⟩ ::
        ((getRecentMessages stEmpty sid0 8).map toChatMsg ++ [⟨.user, p1.prompt⟩]))] ∧
    List.count (⟨WireRole.user, p1.prompt⟩ : ChatMsg)
      (⟨.system, buildSystemPrompt (s0.locale.getD .en)⟩ ::
        ((getRecentMessages stEmpty sid0 8).map toChatMsg ++ [⟨.user, p1.prompt⟩])) = 1 := by
  have h := chat_prompt_not_duplicated env1 stEmpty sid0 s0 p1 (some "yo")
    rfl rfl rfl (fun _ => rfl) (Or.inl (by decide))
  refine ⟨h.1, h.2 ?_⟩
  intro mm hm hr
  simp [getMessages, stEmpty] at hm

end Xiao
